import Mathlib

/-!
Verification of the iou-tracker application core logic.

Shallow embedding notes:
* JavaScript numbers carrying money amounts are modelled as `ℚ`;
  timestamps (epoch milliseconds) are modelled as `Int`.
* `Date#setHours` and date formatting are modelled in the UTC timezone
  (day boundaries at multiples of 86400000 ms).
* Async storage plumbing (AsyncStorage get/set) is modelled by passing the
  stored list explicitly; the catch-and-log wrappers around storage are not
  part of the modelled behaviour.
-/

namespace IOUTracker

/-- `'lent' | 'borrowed'` from `types.ts`. -/
inductive IOUType where
  | lent
  | borrowed
deriving DecidableEq, Repr, Inhabited

/-- The `IOU` interface from `types.ts`; ISO date strings are modelled as
epoch-millisecond integers. -/
structure IOU where
  id : String
  type : IOUType
  amount : ℚ
  personName : String
  note : Option String
  date : Int
  dueDate : Option Int
  isSettled : Bool
  settledDate : Option Int
  createdAt : Int
  updatedAt : Int
  lastReminder : Option Int
  remindersSent : Nat
deriving DecidableEq, Repr, Inhabited

/-- The `UserSummary` interface from `types.ts`. -/
structure UserSummary where
  totalOwed : ℚ
  totalOwing : ℚ
  netBalance : ℚ
deriving DecidableEq, Repr

/-- The `ReminderSettings` interface from `types.ts`. -/
structure ReminderSettings where
  enabled : Bool
  dueDateDaysBefore : Int
  periodicReminderDays : Int
  customMessage : String
  sendSMS : Bool
  notificationTime : String
deriving DecidableEq, Repr

/-- The `AppSettings` interface from `types.ts` (PIN fields elided; they do
not interact with any modelled operation). -/
structure AppSettings where
  currency : String
  dateFormat : String
  reminders : ReminderSettings
deriving DecidableEq, Repr

/-- Default settings produced by `loadSettings` in `storage.ts` when nothing
is stored. -/
def defaultSettings : AppSettings :=
  { currency := "USD"
    dateFormat := "MM/dd/yyyy"
    reminders :=
      { enabled := true
        dueDateDaysBefore := 3
        periodicReminderDays := 7
        customMessage := "Hi {name}, just a friendly reminder about our {type} of {amount}. Thanks!"
        sendSMS := false
        notificationTime := "09:00" } }

/-- `addIOU` from `storage.ts`: appends the new record
(`[...existingIOUs, newIOU]`).  Id generation and timestamping happen before
the append, so the fully-built record is taken as input. -/
def addIOU (ious : List IOU) (newIOU : IOU) : List IOU :=
  ious ++ [newIOU]

/-- `updateIOU` from `storage.ts`: find the record by id; when present,
spread the updates over it and overwrite `updatedAt`; when absent, do
nothing (no error is raised).  The `Partial<IOU>` updates object is modelled
as a patch function applied before the `updatedAt` overwrite. -/
def updateIOU (ious : List IOU) (i : String) (patch : IOU → IOU) (now : Int) :
    List IOU :=
  match ious.findIdx? (fun iou => iou.id == i) with
  | none => ious
  | some idx =>
    match ious[idx]? with
    | none => ious
    | some o => ious.set idx { patch o with updatedAt := now }

/-- `deleteIOU` from `storage.ts`. -/
def deleteIOU (ious : List IOU) (i : String) : List IOU :=
  ious.filter (fun iou => iou.id != i)

/-- The updates object `{ isSettled: true, settledDate: now }` passed by
`settleIOU`. -/
def settlePatch (now : Int) (iou : IOU) : IOU :=
  { iou with isSettled := true, settledDate := some now }

/-- `settleIOU` from `storage.ts`: `updateIOU(id, { isSettled: true,
settledDate: new Date().toISOString() })`. -/
def settleIOU (ious : List IOU) (i : String) (now : Int) : List IOU :=
  updateIOU ious i (settlePatch now) now

/-- `calculateSummary` from `storage.ts`. -/
def calculateSummary (ious : List IOU) : UserSummary :=
  let activeIOUs := ious.filter (fun iou => !iou.isSettled)
  let totalOwed :=
    (activeIOUs.filter (fun iou => iou.type == IOUType.lent)).foldl
      (fun sum iou => sum + iou.amount) 0
  let totalOwing :=
    (activeIOUs.filter (fun iou => iou.type == IOUType.borrowed)).foldl
      (fun sum iou => sum + iou.amount) 0
  { totalOwed := totalOwed
    totalOwing := totalOwing
    netBalance := totalOwed - totalOwing }

/-! ## Time model (UTC) -/

def msPerMinute : Int := 60000

def msPerHour : Int := 3600000

def msPerDay : Int := 86400000

/-- `Date#setHours(h, m, 0, 0)` in the UTC model: keep the calendar day of
`t`, overwrite the time of day. -/
def setTimeOfDay (t : Int) (hours minutes : Nat) : Int :=
  Int.fdiv t msPerDay * msPerDay + (hours : Int) * msPerHour + (minutes : Int) * msPerMinute

/-! JavaScript string primitives used by the sources, implemented by
structural recursion on the character list so that concrete instances reduce
inside the kernel. -/

/-- `String.prototype.toLowerCase` (ASCII range, which covers the data the
application stores). -/
def jsToLowerCase (s : String) : String := ⟨s.data.map Char.toLower⟩

def trimAux (l : List Char) : List Char :=
  ((l.dropWhile Char.isWhitespace).reverse.dropWhile Char.isWhitespace).reverse

/-- `String.prototype.trim`. -/
def jsTrim (s : String) : String := ⟨trimAux s.data⟩

def splitAux (sep : Char) : List Char → List Char → List (List Char)
  | [], acc => [acc.reverse]
  | c :: rest, acc =>
    if c == sep then acc.reverse :: splitAux sep rest []
    else splitAux sep rest (c :: acc)

/-- `String.prototype.split` with a single-character separator. -/
def jsSplit (sep : Char) (s : String) : List String :=
  (splitAux sep s.data []).map (fun l => ⟨l⟩)

/-- JavaScript `parseInt` restricted to the shapes that occur in `HH:mm`
strings: read the leading decimal digits; `none` models `NaN`. -/
def parseIntJS (s : String) : Option Nat :=
  let digits := s.data.takeWhile Char.isDigit
  if digits.isEmpty then none
  else some (digits.foldl (fun n c => n * 10 + (c.toNat - 48)) 0)

/-- `const [hours, minutes] = reminders.notificationTime.split(':')` followed
by `parseInt` on both parts (`reminders.ts`, the `setHours` call).  `none`
models the `NaN`/Invalid-Date outcome of an unparseable setting. -/
def notificationTimeParts (time : String) : Option (Nat × Nat) :=
  let parts := jsSplit ':' time
  match parseIntJS (parts.getD 0 ""), parseIntJS (parts.getD 1 "") with
  | some h, some m => some (h, m)
  | _, _ => none

/-! ## Reminder scheduling (`scheduleIOUReminder` and friends) -/

/-- The candidate date before the `setHours` overwrite (`scheduleIOUReminder`
lines 98-117): due-date branch computes `dueDate - dueDateDaysBefore` days and
clamps to `now + 5` minutes when that is not strictly in the future; periodic
branch computes `(lastReminder ?? date) + periodicReminderDays` days with no
clamp. -/
def reminderBase (iou : IOU) (rs : ReminderSettings) (now : Int) : Int :=
  match iou.dueDate with
  | some dueDate =>
    let r := dueDate - rs.dueDateDaysBefore * msPerDay
    if r ≤ now then now + 5 * msPerMinute else r
  | none =>
    (iou.lastReminder.getD iou.date) + rs.periodicReminderDays * msPerDay

/-- The full reminder candidate of `scheduleIOUReminder`: the branch result
with its time of day overwritten to the parsed `notificationTime`
(`reminderDate.setHours(parseInt(hours), parseInt(minutes), 0, 0)`). -/
def reminderCandidate (iou : IOU) (rs : ReminderSettings) (now : Int) : Option Int :=
  match notificationTimeParts rs.notificationTime with
  | some (h, m) => some (setTimeOfDay (reminderBase iou rs now) h m)
  | none => none

/-- The `seconds` passed to the notification trigger:
`Math.max(1, Math.floor((reminderDate.getTime() - Date.now()) / 1000))`. -/
def triggerSeconds (candidate now : Int) : Int :=
  max 1 (Int.fdiv (candidate - now) 1000)

/-- The instant at which a time-interval trigger scheduled at `now` fires. -/
def scheduledFireTime (candidate now : Int) : Int :=
  now + 1000 * triggerSeconds candidate now

/-- A pending scheduled notification in the expo notification center. -/
structure ScheduledNotification where
  identifier : String
  iouId : String
  seconds : Int
deriving DecidableEq, Repr

/-- The expo notification center: pending requests plus the generator for the
identifiers it assigns to requests scheduled without an explicit one. -/
structure NotificationCenter where
  pending : List ScheduledNotification
  nextAutoId : Nat
deriving DecidableEq, Repr

def emptyCenter : NotificationCenter := { pending := [], nextAutoId := 0 }

/-- `Notifications.scheduleNotificationAsync({ content, trigger })`.  The
source passes no `identifier` field, so the expo layer assigns a fresh one
(modelled by the counter) and returns it. -/
def scheduleNotificationAsync (c : NotificationCenter) (iouId : String) (secs : Int) :
    String × NotificationCenter :=
  let ident := "expo-" ++ toString c.nextAutoId
  (ident,
   { pending := c.pending ++ [{ identifier := ident, iouId := iouId, seconds := secs }]
     nextAutoId := c.nextAutoId + 1 })

/-- `Notifications.cancelScheduledNotificationAsync(id)`: removes the pending
requests carrying exactly that identifier. -/
def cancelScheduledNotificationAsync (c : NotificationCenter) (ident : String) :
    NotificationCenter :=
  { c with pending := c.pending.filter (fun n => n.identifier != ident) }

/-- `cancelIOUReminder` from `reminders.ts`: cancels by the derived key
`iou-reminder-<iouId>`. -/
def cancelIOUReminder (c : NotificationCenter) (iouId : String) : NotificationCenter :=
  cancelScheduledNotificationAsync c ("iou-reminder-" ++ iouId)

/-- `scheduleIOUReminder` from `reminders.ts` as a transformer of the
notification center: bail out when reminders are disabled, cancel the derived
key, compute the candidate, schedule a time-interval trigger.  The local
`notificationId` variable of the source is computed but never passed to
`scheduleNotificationAsync`.  An unparseable `notificationTime` (the `none`
candidate, i.e. the Invalid-Date path) is modelled as scheduling nothing. -/
def scheduleIOUReminder (c : NotificationCenter) (iou : IOU) (settings : AppSettings)
    (now : Int) : Option String × NotificationCenter :=
  if !settings.reminders.enabled then (none, c)
  else
    let c1 := cancelIOUReminder c iou.id
    match reminderCandidate iou settings.reminders now with
    | some candidate =>
      let r := scheduleNotificationAsync c1 iou.id (triggerSeconds candidate now)
      (some r.1, r.2)
    | none => (none, c1)

/-- The candidate date computed by `getUpcomingReminders` (lines 283-289):
same branch structure, but with neither the clamp nor the `setHours`
overwrite. -/
def upcomingCandidate (iou : IOU) (rs : ReminderSettings) : Int :=
  match iou.dueDate with
  | some dueDate => dueDate - rs.dueDateDaysBefore * msPerDay
  | none => (iou.lastReminder.getD iou.date) + rs.periodicReminderDays * msPerDay

/-- `getUpcomingReminders` from `reminders.ts`: over the unsettled records,
keep the candidates inside `[now, now + 7 days]` and sort ascending by
candidate date (`Array#sort` on the dates, modelled by `mergeSort`). -/
def getUpcomingReminders (ious : List IOU) (settings : AppSettings) (now : Int) :
    List (IOU × Int) :=
  if !settings.reminders.enabled then []
  else
    let next7Days := now + 7 * msPerDay
    let collected := (ious.filter (fun i => !i.isSettled)).filterMap (fun iou =>
      let r := upcomingCandidate iou settings.reminders
      if now ≤ r && r ≤ next7Days then some (iou, r) else none)
    collected.mergeSort (fun a b => decide (a.2 ≤ b.2))

/-! ## Application-level state and reachability -/

/-- Combined state: the stored record list and the notification center. -/
structure AppState where
  ious : List IOU
  notif : NotificationCenter
deriving DecidableEq, Repr

def initialState : AppState := { ious := [], notif := emptyCenter }

/-- `handleSettleIOU` from `app/(tabs)/index.tsx`: on confirmation it calls
`settleIOU(iou.id)` and reloads; no notification call is made. -/
def handleSettleIOU (s : AppState) (i : String) (now : Int) : AppState :=
  { s with ious := settleIOU s.ious i now }

/-- The user-reachable operations touching records and reminders: adding a
record, scheduling a reminder for a stored active record (as
`scheduleAllReminders` does for each unsettled record), settling from the
dashboard, and deleting. -/
inductive AppStep : AppState → AppState → Prop where
  | add (s : AppState) (iou : IOU) :
      AppStep s { ious := addIOU s.ious iou, notif := s.notif }
  | scheduleOne (s : AppState) (iou : IOU) (settings : AppSettings) (now : Int)
      (hmem : iou ∈ s.ious) (hactive : iou.isSettled = false) :
      AppStep s { ious := s.ious, notif := (scheduleIOUReminder s.notif iou settings now).2 }
  | settle (s : AppState) (i : String) (now : Int) :
      AppStep s (handleSettleIOU s i now)
  | delete (s : AppState) (i : String) :
      AppStep s { ious := deleteIOU s.ious i, notif := s.notif }

def ReachableApp (s : AppState) : Prop :=
  Relation.ReflTransGen AppStep initialState s

/-- `getUpcomingReminders` viewed as an operation on the application state:
the source performs `loadIOUs`/`loadSettings` only, never a save, so the
state component passes through unchanged. -/
def getUpcomingRemindersOp (s : AppState) (settings : AppSettings) (now : Int) :
    List (IOU × Int) × AppState :=
  (getUpcomingReminders s.ious settings now, s)

/-! ## Category management (`categories.ts`) -/

/-- The `Category` interface from `types.ts`. -/
structure Category where
  id : String
  name : String
  color : String
  icon : String
  createdAt : Int
  isDefault : Bool
deriving DecidableEq, Repr

/-- `DEFAULT_CATEGORIES`, parameterised by the module-load timestamp used for
`createdAt`. -/
def DEFAULT_CATEGORIES (loadTime : Int) : List Category :=
  [ { id := "general", name := "General", color := "#007AFF", icon := "banknote",
      createdAt := loadTime, isDefault := true },
    { id := "personal", name := "Personal", color := "#34C759", icon := "person",
      createdAt := loadTime, isDefault := true },
    { id := "business", name := "Business", color := "#FF9500", icon := "building",
      createdAt := loadTime, isDefault := true },
    { id := "family", name := "Family", color := "#FF2D92", icon := "house",
      createdAt := loadTime, isDefault := true } ]

/-- Outcome of a category CRUD call: `proBlocked` is the `null`/`false`
return when the pro feature is absent, `thrown msg` a thrown `Error(msg)`. -/
inductive CategoryOutcome where
  | proBlocked
  | thrown (msg : String)
  | okCategory (c : Category)
  | okDeleted
deriving DecidableEq, Repr

/-- `createCategory`: pro gate, case-insensitive duplicate check on the raw
requested name, then the new category is stored with the TRIMMED name. -/
def createCategory (cats : List Category) (hasPro : Bool) (name color icon : String)
    (newId : String) (now : Int) : CategoryOutcome × List Category :=
  if !hasPro then (.proBlocked, cats)
  else if cats.any (fun cat => jsToLowerCase cat.name == jsToLowerCase name) then
    (.thrown "Category name already exists", cats)
  else
    let newCategory : Category :=
      { id := newId, name := jsTrim name, color := color, icon := icon,
        createdAt := now, isDefault := false }
    (.okCategory newCategory, cats ++ [newCategory])

/-- The `Partial<Pick<Category, 'name' | 'color' | 'icon'>>` updates object. -/
structure CategoryPatch where
  name : Option String := none
  color : Option String := none
  icon : Option String := none

/-- `updateCategory`: not-found check, rename-collision check against the raw
new name, then the spread with `name: updates.name?.trim() || category.name`. -/
def updateCategory (cats : List Category) (hasPro : Bool) (i : String)
    (updates : CategoryPatch) : CategoryOutcome × List Category :=
  if !hasPro then (.proBlocked, cats)
  else
    match cats.findIdx? (fun cat => cat.id == i) with
    | none => (.thrown "Category not found", cats)
    | some idx =>
      match cats[idx]? with
      | none => (.thrown "Category not found", cats)
      | some category =>
        let conflict :=
          match updates.name with
          | some n =>
            n != category.name &&
              cats.any (fun cat => jsToLowerCase cat.name == jsToLowerCase n && cat.id != i)
          | none => false
        if conflict then (.thrown "Category name already exists", cats)
        else
          let newName :=
            match updates.name with
            | some n => if jsTrim n == "" then category.name else jsTrim n
            | none => category.name
          let updated : Category :=
            { category with
              name := newName
              color := updates.color.getD category.color
              icon := updates.icon.getD category.icon }
          (.okCategory updated, cats.set idx updated)

/-- `deleteCategory`: not-found and protected-default checks, then filter. -/
def deleteCategory (cats : List Category) (hasPro : Bool) (i : String) :
    CategoryOutcome × List Category :=
  if !hasPro then (.proBlocked, cats)
  else
    match cats.find? (fun cat => cat.id == i) with
    | none => (.thrown "Category not found", cats)
    | some category =>
      if category.isDefault then (.thrown "Cannot delete default category", cats)
      else (.okDeleted, cats.filter (fun cat => cat.id != i))

/-! ## Ad frequency limits (`ads.ts`) -/

def INTERSTITIAL_MIN_INTERVAL : Int := 5 * 60 * 1000

def MAX_INTERSTITIALS_PER_SESSION : Nat := 3

def MAX_INTERSTITIALS_PER_DAY : Nat := 8

/-- `AdFrequencyData`; `toDateString()` values are modelled as calendar-day
indices. -/
structure AdFrequencyData where
  lastInterstitial : Int
  interstitialsToday : Nat
  interstitialsSession : Nat
  lastDate : Nat
deriving DecidableEq, Repr

/-- The constructor-time counters of `AdService`. -/
def initialAdFrequencyData (startDay : Nat) : AdFrequencyData :=
  { lastInterstitial := 0, interstitialsToday := 0, interstitialsSession := 0,
    lastDate := startDay }

/-- The new-day reset at the top of `canShowInterstitialAd`. -/
def dailyReset (d : AdFrequencyData) (today : Nat) : AdFrequencyData :=
  if d.lastDate != today then { d with interstitialsToday := 0, lastDate := today }
  else d

/-- `canShowInterstitialAd`: daily reset, then the three frequency checks in
source order.  Returns the verdict together with the (possibly reset)
counters, which the source mutates in place. -/
def canShowInterstitialAd (d : AdFrequencyData) (now : Int) (today : Nat) :
    Bool × AdFrequencyData :=
  let d1 := dailyReset d today
  if now - d1.lastInterstitial < INTERSTITIAL_MIN_INTERVAL then (false, d1)
  else if MAX_INTERSTITIALS_PER_DAY ≤ d1.interstitialsToday then (false, d1)
  else if MAX_INTERSTITIALS_PER_SESSION ≤ d1.interstitialsSession then (false, d1)
  else (true, d1)

/-- `updateInterstitialFrequency`, invoked by the `CLOSED` listener of a shown
interstitial. -/
def updateInterstitialFrequency (d : AdFrequencyData) (now : Int) : AdFrequencyData :=
  { d with lastInterstitial := now
           interstitialsToday := d.interstitialsToday + 1
           interstitialsSession := d.interstitialsSession + 1 }

/-- `showInterstitialAd` with the subsequent `CLOSED` counter update composed
sequentially.  `serviceReady` collapses the `isInitialized && !isProVersion()
&& !isAdFree && interstitialAd` guard; `loaded` is `interstitialAd.loaded`. -/
def showInterstitialAd (d : AdFrequencyData) (serviceReady loaded : Bool) (now : Int)
    (today : Nat) : Bool × AdFrequencyData :=
  if !serviceReady then (false, d)
  else
    let res := canShowInterstitialAd d now today
    if res.1 then
      if loaded then (true, updateInterstitialFrequency res.2 now)
      else (false, res.2)
    else (false, res.2)

/-- `resetSessionCounters` (called when the app becomes active). -/
def resetSessionCounters (d : AdFrequencyData) : AdFrequencyData :=
  { d with interstitialsSession := 0 }

/-- The operations that touch the frequency counters. -/
inductive AdStep : AdFrequencyData → AdFrequencyData → Prop where
  | showAd (d : AdFrequencyData) (serviceReady loaded : Bool) (now : Int) (today : Nat) :
      AdStep d (showInterstitialAd d serviceReady loaded now today).2
  | resetSession (d : AdFrequencyData) :
      AdStep d (resetSessionCounters d)

def ReachableAd (startDay : Nat) (d : AdFrequencyData) : Prop :=
  Relation.ReflTransGen AdStep (initialAdFrequencyData startDay) d

/-! ## CSV export (`ExportManager.generateCSVContent`) -/

/-- `Array#join(sep)` on the row arrays of the source. -/
def joinSep (sep : String) : List String → String
  | [] => ""
  | [a] => a
  | a :: b :: rest => a ++ sep ++ joinSep sep (b :: rest)

def pad2 (n : Nat) : String :=
  if n < 10 then "0" ++ toString n else toString n

/-- Gregorian date of a day count since 1970-01-01 (the civil-from-days
algorithm); yields `(year, month, day)`. -/
def civilFromDays (z0 : Nat) : Nat × Nat × Nat :=
  let z := z0 + 719468
  let era := z / 146097
  let doe := z % 146097
  let yoe := (doe - doe / 1460 + doe / 36524 - doe / 146096) / 365
  let y := yoe + era * 400
  let doy := doe - (365 * yoe + yoe / 4 - yoe / 100)
  let mp := (5 * doy + 2) / 153
  let d := doy - (153 * mp + 2) / 5 + 1
  let m := if mp < 10 then mp + 3 else mp - 9
  (if m ≤ 2 then y + 1 else y, m, d)

/-- `format(date, 'yyyy-MM-dd')` in the UTC model. -/
def formatYMD (t : Int) : String :=
  let c := civilFromDays (Int.fdiv t msPerDay).toNat
  toString c.1 ++ "-" ++ pad2 c.2.1 ++ "-" ++ pad2 c.2.2

/-- `format(date, 'yyyy-MM-dd HH:mm:ss')` in the UTC model. -/
def formatYMDHMS (t : Int) : String :=
  let msOfDay := (Int.emod t msPerDay).toNat
  formatYMD t ++ " " ++ pad2 (msOfDay / 3600000) ++ ":" ++
    pad2 (msOfDay / 60000 % 60) ++ ":" ++ pad2 (msOfDay / 1000 % 60)

/-- `Number#toFixed(2)` in the exact-rational model: two decimals, rounding
half away from zero. -/
def toFixed2 (q : ℚ) : String :=
  let sign := if q < 0 then "-" else ""
  let a := if q < 0 then -q else q
  let cents := ((200 * a.num + (a.den : Int)) / (2 * (a.den : Int))).toNat
  sign ++ toString (cents / 100) ++ "." ++ pad2 (cents % 100)

def typeString : IOUType → String
  | .lent => "lent"
  | .borrowed => "borrowed"

def csvHeaders : List String :=
  ["Person Name", "Amount", "Type", "Date", "Due Date", "Status", "Notes",
   "Created", "Settled Date"]

def csvHeaderRow : String := joinSep "," csvHeaders

/-- One data row of `generateCSVContent`: the nine-entry array joined by
commas. -/
def csvRow (iou : IOU) : String :=
  joinSep ","
    [ "\"" ++ iou.personName ++ "\"",
      toFixed2 iou.amount,
      typeString iou.type,
      formatYMD iou.date,
      (match iou.dueDate with | some d => formatYMD d | none => ""),
      (if iou.isSettled then "Settled" else "Active"),
      "\"" ++ iou.note.getD "" ++ "\"",
      formatYMDHMS iou.createdAt,
      (match iou.settledDate with | some d => formatYMD d | none => "") ]

/-- `generateCSVContent`: `[headerRow, ...dataRows].join('\n')`. -/
def generateCSVContent (ious : List IOU) : String :=
  joinSep "\n" (csvHeaderRow :: ious.map csvRow)

/-! ## Sample records used by concrete instances -/

def baseIOU : IOU :=
  { id := "iou-1", type := .lent, amount := 50, personName := "Alice", note := none,
    date := 0, dueDate := none, isSettled := false, settledDate := none,
    createdAt := 0, updatedAt := 0, lastReminder := none, remindersSent := 0 }

def c2Lent50 : IOU := baseIOU

def c2Borrowed20 : IOU :=
  { baseIOU with id := "iou-2", type := .borrowed, amount := 20 }

def c2LentSettled100 : IOU :=
  { baseIOU with id := "iou-3", amount := 100, isSettled := true }

def c1Iou : IOU := { baseIOU with id := "r1", dueDate := some (30 * msPerDay) }

def c1State1 : AppState :=
  { ious := addIOU initialState.ious c1Iou, notif := initialState.notif }

def c1State2 : AppState :=
  { ious := c1State1.ious,
    notif := (scheduleIOUReminder c1State1.notif c1Iou defaultSettings 0).2 }

def c1State3 : AppState := handleSettleIOU c1State2 "r1" 1000

def c3Iou : IOU := { baseIOU with dueDate := some 0 }

def c4Iou : IOU := { baseIOU with id := "iou-4", dueDate := some (30 * msPerDay) }

def c4First : Option String × NotificationCenter :=
  scheduleIOUReminder emptyCenter c4Iou defaultSettings 0

def c4Second : Option String × NotificationCenter :=
  scheduleIOUReminder c4First.2 c4Iou defaultSettings 0

def seededCategories : List Category := DEFAULT_CATEGORIES 0

/-- Invariant on the frequency counters. -/
def AdInv (d : AdFrequencyData) : Prop :=
  d.interstitialsSession ≤ MAX_INTERSTITIALS_PER_SESSION
  ∧ d.interstitialsToday ≤ MAX_INTERSTITIALS_PER_DAY

/-! Helper lemmas about the storage functions. -/

theorem foldl_add_amount (l : List IOU) (a : ℚ) :
    l.foldl (fun sum iou => sum + iou.amount) a = a + (l.map IOU.amount).sum := by
  induction l generalizing a with
  | nil => simp
  | cons x xs ih => simp [List.foldl_cons, ih, add_assoc]

theorem findIdx?_eq_none_of_not_mem (ious : List IOU) (i : String)
    (h : ∀ iou ∈ ious, iou.id ≠ i) :
    ious.findIdx? (fun iou => iou.id == i) = none := by
  induction ious with
  | nil => rfl
  | cons x xs ih =>
    have hx : (x.id == i) = false := by
      simpa using h x (List.mem_cons_self x xs)
    have hrest := ih (fun iou hm => h iou (List.mem_cons_of_mem x hm))
    simp [List.findIdx?_cons, hx, hrest]

/-! ## Claims -/

/-- C2: `calculateSummary` returns the sum of the active lent amounts as
`totalOwed`, the sum of the active borrowed amounts as `totalOwing`, and their
difference as `netBalance`; the empty list gives the all-zero summary and the
three-record example gives `{50, 20, 30}`. -/
theorem C2_calculateSummary_correct :
    (∀ ious : List IOU,
      (calculateSummary ious).totalOwed =
        ((ious.filter (fun iou => iou.type == IOUType.lent && !iou.isSettled)).map
          IOU.amount).sum
      ∧ (calculateSummary ious).totalOwing =
        ((ious.filter (fun iou => iou.type == IOUType.borrowed && !iou.isSettled)).map
          IOU.amount).sum
      ∧ (calculateSummary ious).netBalance =
        (calculateSummary ious).totalOwed - (calculateSummary ious).totalOwing)
    ∧ calculateSummary [] = { totalOwed := 0, totalOwing := 0, netBalance := 0 }
    ∧ calculateSummary [c2Lent50, c2Borrowed20, c2LentSettled100] =
        { totalOwed := 50, totalOwing := 20, netBalance := 30 } := by
  refine ⟨fun ious => ⟨?_, ?_, rfl⟩, ?_, ?_⟩
  · show (((ious.filter fun iou => !iou.isSettled).filter
      (fun iou => iou.type == IOUType.lent)).foldl (fun sum iou => sum + iou.amount) 0) = _
    rw [foldl_add_amount, List.filter_filter, zero_add]
  · show (((ious.filter fun iou => !iou.isSettled).filter
      (fun iou => iou.type == IOUType.borrowed)).foldl (fun sum iou => sum + iou.amount) 0) = _
    rw [foldl_add_amount, List.filter_filter, zero_add]
  · norm_num [calculateSummary]
  · show calculateSummary [c2Lent50, c2Borrowed20, c2LentSettled100] = _
    simp only [calculateSummary, c2Lent50, c2Borrowed20, c2LentSettled100, baseIOU,
      List.filter, List.foldl]
    norm_num

/-- C10: `updateIOU` (and therefore `settleIOU`) on an id absent from the
stored list is a silent no-op: the list is returned unchanged and no error
path is taken. -/
theorem C10_missing_id_noop :
    ∀ (ious : List IOU) (i : String) (patch : IOU → IOU) (now : Int),
    (∀ iou ∈ ious, iou.id ≠ i) →
    updateIOU ious i patch now = ious ∧ settleIOU ious i now = ious := by
  intro ious i patch now h
  have hn := findIdx?_eq_none_of_not_mem ious i h
  constructor
  · unfold updateIOU
    rw [hn]
  · unfold settleIOU updateIOU
    rw [hn]

theorem C10_witness :
    (∀ iou ∈ [baseIOU], iou.id ≠ "missing") ∧
    (updateIOU [baseIOU] "missing" (settlePatch 5) 5 = [baseIOU] ∧
     settleIOU [baseIOU] "missing" 5 = [baseIOU]) :=
  ⟨by decide, C10_missing_id_noop [baseIOU] "missing" (settlePatch 5) 5 (by decide)⟩

/-! C1: the record used in the reachable counterexample state. -/

/-- C1 counterexample: a state reached by add, schedule, settle in which a
settled record still has a pending scheduled reminder — `settleIOU` performs
no notification cancellation. -/
theorem C1_counterexample :
    ReachableApp c1State3 ∧
    ∃ iou ∈ c1State3.ious, iou.isSettled = true ∧
      c1State3.notif.pending.any (fun n => n.iouId == iou.id) = true := by
  constructor
  · exact Relation.ReflTransGen.head (AppStep.add initialState c1Iou)
      (Relation.ReflTransGen.head
        (AppStep.scheduleOne c1State1 c1Iou defaultSettings 0
          (List.mem_singleton_self _) rfl)
        (Relation.ReflTransGen.single (AppStep.settle c1State2 "r1" 1000)))
  · exact ⟨{ c1Iou with isSettled := true, settledDate := some 1000, updatedAt := 1000 },
      by decide, rfl, by decide⟩

/-- C1 amended: the settle flow marks the found record settled (with
`settledDate` and `updatedAt` set) but leaves the notification center
untouched. -/
theorem C1_settle_keeps_notifications :
    ∀ (s : AppState) (i : String) (now : Int),
    (handleSettleIOU s i now).notif = s.notif
    ∧ (∀ idx o, s.ious.findIdx? (fun iou => iou.id == i) = some idx →
        s.ious[idx]? = some o →
        (handleSettleIOU s i now).ious =
          s.ious.set idx { o with isSettled := true, settledDate := some now,
                                  updatedAt := now }) := by
  intro s i now
  refine ⟨rfl, ?_⟩
  intro idx o h1 h2
  show settleIOU s.ious i now = _
  unfold settleIOU updateIOU
  rw [h1]
  dsimp only
  rw [h2]
  rfl

theorem C1_witness :
    ([c1Iou].findIdx? (fun iou => iou.id == "r1") = some 0 ∧
     ([c1Iou] : List IOU)[0]? = some c1Iou) ∧
    ((handleSettleIOU { ious := [c1Iou], notif := emptyCenter } "r1" 7).notif = emptyCenter ∧
     (handleSettleIOU { ious := [c1Iou], notif := emptyCenter } "r1" 7).ious =
       [c1Iou].set 0 { c1Iou with isSettled := true, settledDate := some 7,
                                  updatedAt := 7 }) :=
  ⟨⟨rfl, rfl⟩,
   ⟨(C1_settle_keeps_notifications { ious := [c1Iou], notif := emptyCenter } "r1" 7).1,
    (C1_settle_keeps_notifications { ious := [c1Iou], notif := emptyCenter } "r1" 7).2
      0 c1Iou rfl rfl⟩⟩

/-! C3: due-date reminder candidate. -/

/-- C3 counterexample: with `dueDate` in the past (`D = 0`, `k = 3`,
`now` = 13:00 on day 0, notification time 09:00) the clamped candidate is not
`now + 5` minutes: the subsequent `setHours` overwrite moves it to 09:00 of
the current day, which lies before `now`. -/
theorem C3_counterexample :
    reminderCandidate c3Iou defaultSettings.reminders 46800000 = some 32400000
    ∧ (32400000 : Int) ≠ 46800000 + 5 * msPerMinute
    ∧ (32400000 : Int) < 46800000 := by
  refine ⟨by decide, by decide, by decide⟩

/-- C3 amended: when `D - k` days is strictly in the future the candidate is
that instant with the time of day overwritten to the policy time; otherwise
the candidate is `now + 5` minutes, likewise with its time of day
overwritten (so it may differ from `now + 5` minutes and may even lie in the
past); the scheduled fire time is always strictly in the future because the
trigger delay is at least one second. -/
theorem C3_candidate_clamp_then_overwrite :
    ∀ (iou : IOU) (rs : ReminderSettings) (now D : Int) (h m : Nat),
    notificationTimeParts rs.notificationTime = some (h, m) →
    iou.dueDate = some D →
    iou.isSettled = false →
    ((now < D - rs.dueDateDaysBefore * msPerDay →
        reminderCandidate iou rs now =
          some (setTimeOfDay (D - rs.dueDateDaysBefore * msPerDay) h m))
     ∧ (D - rs.dueDateDaysBefore * msPerDay ≤ now →
        reminderCandidate iou rs now =
          some (setTimeOfDay (now + 5 * msPerMinute) h m))
     ∧ (∀ c, reminderCandidate iou rs now = some c →
          now < scheduledFireTime c now)) := by
  intro iou rs now D h m hp hdue _hset
  refine ⟨?_, ?_, ?_⟩
  · intro hfut
    have hbase : reminderBase iou rs now = D - rs.dueDateDaysBefore * msPerDay := by
      unfold reminderBase
      rw [hdue]
      dsimp only
      rw [if_neg (not_le.mpr hfut)]
    simp [reminderCandidate, hp, hbase]
  · intro hpast
    have hbase : reminderBase iou rs now = now + 5 * msPerMinute := by
      unfold reminderBase
      rw [hdue]
      dsimp only
      rw [if_pos hpast]
    simp [reminderCandidate, hp, hbase]
  · intro c _
    unfold scheduledFireTime triggerSeconds
    have h1 : (1 : Int) ≤ max 1 (Int.fdiv (c - now) 1000) := le_max_left _ _
    linarith

theorem C3_witness :
    notificationTimeParts defaultSettings.reminders.notificationTime = some (9, 0) ∧
    reminderCandidate c3Iou defaultSettings.reminders (-400000000) =
      some (setTimeOfDay (0 - defaultSettings.reminders.dueDateDaysBefore * msPerDay) 9 0) :=
  ⟨rfl,
   (C3_candidate_clamp_then_overwrite c3Iou defaultSettings.reminders (-400000000) 0 9 0
      rfl rfl rfl).1 (by decide)⟩

/-! C4: double scheduling. -/

/-- C4: scheduling the same record twice leaves TWO pending notifications for
it.  The source cancels the key `iou-reminder-<id>` but schedules without an
explicit identifier, so the cancel never matches the auto-assigned identifier
of the previously scheduled request. -/
theorem C4_double_schedule_two_pending :
    (c4First.2.pending.filter (fun n => n.iouId == c4Iou.id)).length = 1
    ∧ (c4Second.2.pending.filter (fun n => n.iouId == c4Iou.id)).length = 2 := by
  refine ⟨by decide, by decide⟩

/-! C5: periodic reminder candidate. -/

/-- C5: for a record with no due date the periodic candidate is
`(lastReminder ?? date) + periodicReminderDays` days with the time of day
overwritten to the policy's notification time. -/
theorem C5_periodic_candidate :
    ∀ (iou : IOU) (rs : ReminderSettings) (now : Int) (h m : Nat),
    notificationTimeParts rs.notificationTime = some (h, m) →
    iou.dueDate = none →
    iou.isSettled = false →
    ((iou.lastReminder = none →
        reminderCandidate iou rs now =
          some (setTimeOfDay (iou.date + rs.periodicReminderDays * msPerDay) h m))
     ∧ (∀ L, iou.lastReminder = some L →
        reminderCandidate iou rs now =
          some (setTimeOfDay (L + rs.periodicReminderDays * msPerDay) h m))) := by
  intro iou rs now h m hp hdue _hset
  constructor
  · intro hlast
    have hbase : reminderBase iou rs now = iou.date + rs.periodicReminderDays * msPerDay := by
      unfold reminderBase
      rw [hdue]
      dsimp only
      rw [hlast, Option.getD_none]
    simp [reminderCandidate, hp, hbase]
  · intro L hlast
    have hbase : reminderBase iou rs now = L + rs.periodicReminderDays * msPerDay := by
      unfold reminderBase
      rw [hdue]
      dsimp only
      rw [hlast, Option.getD_some]
    simp [reminderCandidate, hp, hbase]

theorem C5_witness :
    notificationTimeParts defaultSettings.reminders.notificationTime = some (9, 0) ∧
    reminderCandidate baseIOU defaultSettings.reminders 0 =
      some (setTimeOfDay (baseIOU.date + defaultSettings.reminders.periodicReminderDays * msPerDay) 9 0) :=
  ⟨rfl,
   (C5_periodic_candidate baseIOU defaultSettings.reminders 0 9 0 rfl rfl rfl).1 rfl⟩

/-! C6: upcoming-reminders query. -/

/-- C6 counterexample: for a periodic record the scheduler's candidate (with
the notification-time overwrite) differs from the dashboard's candidate. -/
theorem C6_counterexample :
    upcomingCandidate baseIOU defaultSettings.reminders = 604800000
    ∧ reminderCandidate baseIOU defaultSettings.reminders 0 = some 637200000
    ∧ reminderCandidate baseIOU defaultSettings.reminders 0 ≠
        some (upcomingCandidate baseIOU defaultSettings.reminders) := by
  refine ⟨by decide, by decide, by decide⟩

/-- C6 amended: `getUpcomingReminders` computes, per unsettled record, the
base of the scheduling candidate (before the clamp and before the
notification-time overwrite): outside the clamp the scheduler's candidate is
exactly this base with the time of day overwritten.  The query keeps exactly
the base candidates inside `[now, now + 7 days]`, is sorted ascending by
candidate date, and leaves the stored state unchanged. -/
theorem C6_upcoming_query_properties :
    (∀ (iou : IOU) (rs : ReminderSettings) (now : Int) (h m : Nat),
      notificationTimeParts rs.notificationTime = some (h, m) →
      ((∀ D, iou.dueDate = some D → now < upcomingCandidate iou rs →
          reminderCandidate iou rs now =
            some (setTimeOfDay (upcomingCandidate iou rs) h m))
       ∧ (iou.dueDate = none →
          reminderCandidate iou rs now =
            some (setTimeOfDay (upcomingCandidate iou rs) h m))))
    ∧ (∀ (ious : List IOU) (s : AppSettings) (now : Int) (iou : IOU) (r : Int),
        s.reminders.enabled = true →
        ((iou, r) ∈ getUpcomingReminders ious s now ↔
          iou ∈ ious ∧ iou.isSettled = false ∧ r = upcomingCandidate iou s.reminders ∧
          now ≤ r ∧ r ≤ now + 7 * msPerDay))
    ∧ (∀ (ious : List IOU) (s : AppSettings) (now : Int),
        (getUpcomingReminders ious s now).Pairwise (fun a b => a.2 ≤ b.2))
    ∧ (∀ (s : AppState) (settings : AppSettings) (now : Int),
        (getUpcomingRemindersOp s settings now).2 = s) := by
  refine ⟨?_, ?_, ?_, fun s settings now => rfl⟩
  · intro iou rs now h m hp
    constructor
    · intro D hdue hfut
      have hup : upcomingCandidate iou rs = D - rs.dueDateDaysBefore * msPerDay := by
        unfold upcomingCandidate
        rw [hdue]
      have hbase : reminderBase iou rs now = upcomingCandidate iou rs := by
        unfold reminderBase
        rw [hdue]
        dsimp only
        rw [if_neg (not_le.mpr (hup ▸ hfut)), hup]
      simp [reminderCandidate, hp, hbase]
    · intro hdue
      have hbase : reminderBase iou rs now = upcomingCandidate iou rs := by
        unfold reminderBase upcomingCandidate
        rw [hdue]
      simp [reminderCandidate, hp, hbase]
  · intro ious s now iou r he
    unfold getUpcomingReminders
    rw [he]
    simp only [Bool.not_true, Bool.false_eq_true, if_false]
    rw [List.mem_mergeSort, List.mem_filterMap]
    constructor
    · rintro ⟨a, ha, hfa⟩
      rw [List.mem_filter] at ha
      by_cases hc : (decide (now ≤ upcomingCandidate a s.reminders) &&
          decide (upcomingCandidate a s.reminders ≤ now + 7 * msPerDay)) = true
      · rw [if_pos hc] at hfa
        obtain ⟨rfl, rfl⟩ : a = iou ∧ upcomingCandidate a s.reminders = r := by
          injection hfa with hfa2
          exact ⟨congrArg Prod.fst hfa2, congrArg Prod.snd hfa2⟩
        simp only [Bool.and_eq_true, decide_eq_true_eq] at hc
        exact ⟨ha.1, by simpa using ha.2, rfl, hc.1, hc.2⟩
      · rw [if_neg hc] at hfa
        cases hfa
    · rintro ⟨hmem, hset, rfl, h1, h2⟩
      refine ⟨iou, List.mem_filter.mpr ⟨hmem, by simp [hset]⟩, ?_⟩
      dsimp only
      rw [if_pos (by simp [h1, h2])]
  · intro ious s now
    unfold getUpcomingReminders
    by_cases he : s.reminders.enabled
    · rw [he]
      simp only [Bool.not_true, Bool.false_eq_true, if_false]
      have hs := @List.sorted_mergeSort (IOU × Int)
        (fun a b => decide (a.2 ≤ b.2))
        (fun a b c hab hbc => by
          simp only [decide_eq_true_eq] at hab hbc ⊢
          exact le_trans hab hbc)
        (fun a b => by
          simp only [Bool.or_eq_true, decide_eq_true_eq]
          exact le_total a.2 b.2)
        ((ious.filter (fun i => !i.isSettled)).filterMap (fun iou =>
          let r := upcomingCandidate iou s.reminders
          if now ≤ r && r ≤ now + 7 * msPerDay then some (iou, r) else none))
      exact hs.imp (fun hab => by simpa using hab)
    · have he2 : s.reminders.enabled = false := by
        simpa using he
      rw [he2]
      simp

theorem C6_witness :
    notificationTimeParts defaultSettings.reminders.notificationTime = some (9, 0) ∧
    defaultSettings.reminders.enabled = true ∧
    reminderCandidate baseIOU defaultSettings.reminders 0 =
      some (setTimeOfDay (upcomingCandidate baseIOU defaultSettings.reminders) 9 0) ∧
    (baseIOU, upcomingCandidate baseIOU defaultSettings.reminders) ∈
      getUpcomingReminders [baseIOU] defaultSettings 0 :=
  ⟨rfl, rfl,
   (C6_upcoming_query_properties.1 baseIOU defaultSettings.reminders 0 9 0 rfl).2 rfl,
   (C6_upcoming_query_properties.2.1 [baseIOU] defaultSettings 0 baseIOU
      (upcomingCandidate baseIOU defaultSettings.reminders) rfl).mpr
     ⟨List.mem_singleton_self _, rfl, rfl, by decide, by decide⟩⟩

/-! C7: category name uniqueness. -/

/-- C7: the duplicate check compares the raw requested name but the trimmed
name is stored, so `" General "` passes the check and a second category named
`General` is created: the case-insensitive uniqueness invariant breaks. -/
theorem C7_untrimmed_duplicate_check :
    (createCategory seededCategories true " General " "#FF3B30" "star" "cat-custom-1" 99).1 =
      CategoryOutcome.okCategory
        { id := "cat-custom-1", name := "General", color := "#FF3B30", icon := "star",
          createdAt := 99, isDefault := false }
    ∧ ((createCategory seededCategories true " General " "#FF3B30" "star" "cat-custom-1" 99).2.filter
        (fun cat => jsToLowerCase cat.name == "general")).length = 2 := by
  refine ⟨by decide, by decide⟩

/-! C8: CSV structure. -/

theorem joinSep_cons (sep a : String) (l : List String) (h : l ≠ []) :
    joinSep sep (a :: l) = a ++ sep ++ joinSep sep l := by
  cases l with
  | nil => cases h rfl
  | cons b rest => rfl

theorem count_newline_joinSep (l : List String) (hl : l ≠ [])
    (h : ∀ x ∈ l, x.data.count '\n' = 0) :
    (joinSep "\n" l).data.count '\n' = l.length - 1 := by
  induction l with
  | nil => cases hl rfl
  | cons a rest ih =>
    cases rest with
    | nil =>
      simpa [joinSep] using h a (List.mem_singleton_self a)
    | cons b r2 =>
      rw [joinSep_cons _ _ _ (by simp), String.data_append, String.data_append,
        List.count_append, List.count_append,
        h a (List.mem_cons_self a _),
        ih (by simp) (fun x hx => h x (List.mem_cons_of_mem a hx))]
      simp only [List.length_cons]
      have hnl : ("\n" : String).data.count '\n' = 1 := by decide
      rw [hnl]
      omega

/-- C8: the CSV export begins with the header row, produces one data row per
record (so the newline count — rows minus one — equals the record count
whenever no field carries an embedded newline), and each data row carries the
quoted person name, the two-decimal amount, the type, and the formatted
dates in order. -/
theorem C8_csv_structure :
    ∀ ious : List IOU,
      (∃ t, generateCSVContent ious = csvHeaderRow ++ t)
      ∧ (ious.map csvRow).length = ious.length
      ∧ (∀ iou, csvRow iou =
          "\"" ++ iou.personName ++ "\"" ++ "," ++ toFixed2 iou.amount ++ "," ++
          typeString iou.type ++ "," ++ formatYMD iou.date ++ "," ++
          (match iou.dueDate with | some d => formatYMD d | none => "") ++ "," ++
          (if iou.isSettled then "Settled" else "Active") ++ "," ++
          "\"" ++ iou.note.getD "" ++ "\"" ++ "," ++ formatYMDHMS iou.createdAt ++ "," ++
          (match iou.settledDate with | some d => formatYMD d | none => ""))
      ∧ ((∀ iou ∈ ious, (csvRow iou).data.count '\n' = 0) →
          (generateCSVContent ious).data.count '\n' = ious.length) := by
  intro ious
  refine ⟨?_, List.length_map _ _, ?_, ?_⟩
  · cases ious with
    | nil =>
      exact ⟨"", by simp [generateCSVContent, joinSep]⟩
    | cons x xs =>
      refine ⟨"\n" ++ joinSep "\n" ((x :: xs).map csvRow), ?_⟩
      rw [generateCSVContent, joinSep_cons _ _ _ (by simp), String.append_assoc]
  · intro iou
    simp only [csvRow, joinSep, String.append_assoc]
  · intro h
    have hhead : csvHeaderRow.data.count '\n' = 0 := by decide
    have hall : ∀ x ∈ csvHeaderRow :: ious.map csvRow, x.data.count '\n' = 0 := by
      intro x hx
      rcases List.mem_cons.mp hx with hx1 | hx2
      · rw [hx1]
        exact hhead
      · obtain ⟨iou, hiou, rfl⟩ := List.mem_map.mp hx2
        exact h iou hiou
    rw [generateCSVContent, count_newline_joinSep _ (by simp) hall]
    simp

theorem C8_witness :
    (∀ iou ∈ [baseIOU], (csvRow iou).data.count '\n' = 0) ∧
    (generateCSVContent [baseIOU]).data.count '\n' = ([baseIOU] : List IOU).length :=
  ⟨by decide, (C8_csv_structure [baseIOU]).2.2.2 (by decide)⟩

/-! C9: interstitial frequency limits. -/

theorem dailyReset_lastInterstitial (d : AdFrequencyData) (today : Nat) :
    (dailyReset d today).lastInterstitial = d.lastInterstitial := by
  unfold dailyReset
  split <;> rfl

theorem dailyReset_session (d : AdFrequencyData) (today : Nat) :
    (dailyReset d today).interstitialsSession = d.interstitialsSession := by
  unfold dailyReset
  split <;> rfl

theorem dailyReset_today_le (d : AdFrequencyData) (today : Nat) :
    (dailyReset d today).interstitialsToday = 0 ∨
    (dailyReset d today).interstitialsToday = d.interstitialsToday := by
  unfold dailyReset
  split
  · exact Or.inl rfl
  · exact Or.inr rfl

theorem canShow_snd (d : AdFrequencyData) (now : Int) (today : Nat) :
    (canShowInterstitialAd d now today).2 = dailyReset d today := by
  simp only [canShowInterstitialAd]
  split_ifs <;> rfl

theorem canShow_true_conditions (d : AdFrequencyData) (now : Int) (today : Nat) :
    (canShowInterstitialAd d now today).1 = true →
    INTERSTITIAL_MIN_INTERVAL ≤ now - d.lastInterstitial
    ∧ (dailyReset d today).interstitialsToday < MAX_INTERSTITIALS_PER_DAY
    ∧ d.interstitialsSession < MAX_INTERSTITIALS_PER_SESSION := by
  simp only [canShowInterstitialAd]
  split_ifs with h1 h2 h3
  · intro h
    cases h
  · intro h
    cases h
  · intro h
    cases h
  · intro _
    rw [dailyReset_lastInterstitial] at h1
    rw [dailyReset_session] at h3
    exact ⟨not_lt.mp h1, not_le.mp h2, not_le.mp h3⟩

/-- The three possible post-states of a show attempt, by case analysis on the
guards. -/
theorem showInterstitialAd_cases (d : AdFrequencyData) (serviceReady loaded : Bool)
    (now : Int) (today : Nat) :
    (showInterstitialAd d serviceReady loaded now today = (false, d)
     ∧ serviceReady = false)
    ∨ (showInterstitialAd d serviceReady loaded now today = (false, dailyReset d today))
    ∨ (showInterstitialAd d serviceReady loaded now today =
        (true, updateInterstitialFrequency (dailyReset d today) now)
       ∧ (canShowInterstitialAd d now today).1 = true) := by
  cases serviceReady with
  | false =>
    exact Or.inl ⟨rfl, rfl⟩
  | true =>
    simp only [showInterstitialAd, Bool.not_true, Bool.false_eq_true, if_false]
    cases hc : (canShowInterstitialAd d now today).1 with
    | false =>
      refine Or.inr (Or.inl ?_)
      rw [if_neg (by simp [hc])]
      rw [canShow_snd]
    | true =>
      rw [if_pos (by simp [hc])]
      cases loaded with
      | false =>
        refine Or.inr (Or.inl ?_)
        rw [if_neg (by simp)]
        rw [canShow_snd]
      | true =>
        refine Or.inr (Or.inr ⟨?_, rfl⟩)
        rw [if_pos rfl, canShow_snd]

theorem adInv_dailyReset (d : AdFrequencyData) (today : Nat) (h : AdInv d) :
    AdInv (dailyReset d today) := by
  refine ⟨?_, ?_⟩
  · rw [dailyReset_session]
    exact h.1
  · rcases dailyReset_today_le d today with h0 | h0 <;> rw [h0]
    · exact Nat.zero_le _
    · exact h.2

theorem adInv_step (a b : AdFrequencyData) (hstep : AdStep a b) (h : AdInv a) :
    AdInv b := by
  cases hstep with
  | showAd serviceReady loaded now today =>
    rcases showInterstitialAd_cases a serviceReady loaded now today with
      ⟨heq, _⟩ | heq | ⟨heq, hc⟩
    · rw [heq]
      exact h
    · rw [heq]
      exact adInv_dailyReset a today h
    · rw [heq]
      have hcond := canShow_true_conditions a now today hc
      refine ⟨?_, ?_⟩
      · show (dailyReset a today).interstitialsSession + 1 ≤ _
        rw [dailyReset_session]
        exact hcond.2.2
      · exact hcond.2.1
  | resetSession =>
    exact ⟨Nat.zero_le _, h.2⟩

/-- C9: an interstitial is shown only when at least five minutes have passed
since the previous one, the current-day count is below 8 and the session
count is below 3; along every reachable counter state the session counter
stays at most 3 and the daily counter at most 8. -/
theorem C9_interstitial_frequency_limits :
    (∀ (d d2 : AdFrequencyData) (serviceReady loaded : Bool) (now : Int) (today : Nat),
      showInterstitialAd d serviceReady loaded now today = (true, d2) →
      INTERSTITIAL_MIN_INTERVAL ≤ now - d.lastInterstitial
      ∧ (dailyReset d today).interstitialsToday < MAX_INTERSTITIALS_PER_DAY
      ∧ d.interstitialsSession < MAX_INTERSTITIALS_PER_SESSION)
    ∧ (∀ (startDay : Nat) (d : AdFrequencyData), ReachableAd startDay d →
        d.interstitialsSession ≤ MAX_INTERSTITIALS_PER_SESSION
        ∧ d.interstitialsToday ≤ MAX_INTERSTITIALS_PER_DAY) := by
  constructor
  · intro d d2 serviceReady loaded now today hshow
    rcases showInterstitialAd_cases d serviceReady loaded now today with
      ⟨heq, _⟩ | heq | ⟨heq, hc⟩
    · rw [heq] at hshow
      cases hshow
    · rw [heq] at hshow
      cases hshow
    · exact canShow_true_conditions d now today hc
  · intro startDay d h
    have hinit : AdInv (initialAdFrequencyData startDay) :=
      ⟨Nat.zero_le _, Nat.zero_le _⟩
    induction h with
    | refl => exact hinit
    | tail _hr hstep ih => exact adInv_step _ _ hstep ih

theorem C9_witness :
    (showInterstitialAd (initialAdFrequencyData 0) true true 300000 0 =
      (true, { lastInterstitial := 300000, interstitialsToday := 1,
               interstitialsSession := 1, lastDate := 0 })) ∧
    (INTERSTITIAL_MIN_INTERVAL ≤ 300000 - (initialAdFrequencyData 0).lastInterstitial
     ∧ (dailyReset (initialAdFrequencyData 0) 0).interstitialsToday <
         MAX_INTERSTITIALS_PER_DAY
     ∧ (initialAdFrequencyData 0).interstitialsSession <
         MAX_INTERSTITIALS_PER_SESSION) ∧
    ((initialAdFrequencyData 5).interstitialsSession ≤ MAX_INTERSTITIALS_PER_SESSION
     ∧ (initialAdFrequencyData 5).interstitialsToday ≤ MAX_INTERSTITIALS_PER_DAY) :=
  ⟨by decide,
   C9_interstitial_frequency_limits.1 (initialAdFrequencyData 0)
     { lastInterstitial := 300000, interstitialsToday := 1,
       interstitialsSession := 1, lastDate := 0 } true true 300000 0 (by decide),
   C9_interstitial_frequency_limits.2 5 (initialAdFrequencyData 5)
     Relation.ReflTransGen.refl⟩

end IOUTracker
